import Mathlib

/-!
Verification development for the Data_Analyzer backend
(`backend/master_agent.py`, `backend/main.py`).

The repository wires a LangGraph `StateGraph` over the `AgentState` schema:
eleven nodes, a conditional entry point (`route_start`), a bounded retry
cycle between `coder` and `executor` governed by `router`, and an
`InMemorySaver` checkpointer keyed by thread id.

The `AgentState` field schema, every node function, both routers and the
edge wiring below are translated from `backend/master_agent.py`.  The
runtime that merges node updates into channels, persists checkpoints and
walks the edges is the LangGraph library, which is not part of the
repository's sources; `mergeState`, `runFrom`, `invoke` and the checkpoint
store are therefore modelled from the spec (sections 4.2-4.4): REPLACE
channels are overwritten by an update that carries the field, the single
APPEND channel `chat_history` (annotated with `operator.add`) concatenates,
the input update is merged into the loaded checkpoint before the entry
router runs, and a checkpoint is stored after every node step.

External effects (the filesystem, pandas profiling of CSV contents, LLM
replies, and the outcome of `exec` on generated code) are abstracted into
a `World` oracle; node control flow, the exact fields of every returned
update, and every raising access of the form `state[...]` on a possibly
absent key are modelled faithfully from the source.
-/

namespace DataAnalyzer

/-- Abstraction of the profile dict built by `profiler_node` from the CSV
(columns, null_counts, uniques, shape, sample): the CSV-derived content is
opaque `payload` data supplied by the `World`; `auditor_node` later adds
the `health_grade` and `health_score` keys to the same dict. -/
structure ProfileData where
  payload : String
  health_grade : Option String := none
  health_score : Option Int := none
deriving DecidableEq, Repr

/-- One entry of `analysis_plan`, as produced by `strategist_node`
(a JSON list of objects with keys `title` and `goal`). -/
structure PlanItem where
  title : String
  goal : String
deriving DecidableEq, Repr

/-- One entry of `viz_results`: built by `executor_node` with keys `title`
and `path`; `analyst_node` later adds a `description` key. -/
structure Viz where
  title : String
  path : String
  description : Option String := none
deriving DecidableEq, Repr

/-- Output of the analyst LLM call after JSON handling: the `findings`
list, the per-path `descriptions` lookup, and the raw response text
(stored into `final_report`).  Parse failure is modelled by the world
choosing the fallback content, exactly as the source's `except` branch
substitutes a fixed dict. -/
structure AnalystData where
  findings : List String
  descOf : String → Option String
  raw : String

/-- The session state: the `AgentState` TypedDict of `master_agent.py`
(lines 36-50).  A field whose key may be absent from the underlying dict
is an `Option`; `none` also stands for an explicit Python `None` for the
two fields the HTTP layer sets to `None` (`csv_path`, `user_query`) -- every
reader treats absent and `None` alike (truthiness or a raising access).
`chat_history` is the unique channel annotated with `operator.add`; its
channel default is the empty list. -/
structure AgentState where
  csv_path : Option String := none
  user_query : Option String := none
  data_profile : Option ProfileData := none
  key_findings : Option (List String) := none
  viz_results : Option (List Viz) := none
  chat_history : List String := []
  data_summary : Option String := none
  analysis_plan : Option (List PlanItem) := none
  viz_code : Option String := none
  kpis : Option String := none
  external_context : Option String := none
  final_report : Option String := none
  error_log : Option String := none
  retry_count : Option Int := none
deriving DecidableEq, Repr

/-- A node's update (or the invoke input): the subset of state
fields the dict carries.  `none` means the key is not in the update;
for `csv_path` and `user_query` the carried value is itself optional,
since `main.py` passes an explicit `None` for them. -/
structure AgentUpdate where
  csv_path : Option (Option String) := none
  user_query : Option (Option String) := none
  data_profile : Option ProfileData := none
  key_findings : Option (List String) := none
  viz_results : Option (List Viz) := none
  chat_history : Option (List String) := none
  data_summary : Option String := none
  analysis_plan : Option (List PlanItem) := none
  viz_code : Option String := none
  kpis : Option String := none
  external_context : Option String := none
  final_report : Option String := none
  error_log : Option String := none
  retry_count : Option Int := none
deriving DecidableEq, Repr

/-- REPLACE semantics for one field whose key may be absent from the
state dict: an update that carries the field overwrites it, otherwise the
prior value stays. -/
def rep (old : Option α) : Option α → Option α
  | some v => some v
  | none => old

@[simp] theorem rep_some (old : Option α) (v : α) : rep old (some v) = some v := rfl

@[simp] theorem rep_none (old : Option α) : rep old none = old := rfl

/-- Modelled from the spec (section 4.2), since the merging runtime is the
LangGraph library, not repository source: a REPLACE field present in the
update overwrites the prior value in full; the APPEND field
`chat_history` concatenates the update's list after the existing one and
is left unchanged when absent.  The field schema (which field has which
policy) is from `AgentState` in `master_agent.py`. -/
def mergeState (s : AgentState) (u : AgentUpdate) : AgentState where
  csv_path := u.csv_path.getD s.csv_path
  user_query := u.user_query.getD s.user_query
  data_profile := rep s.data_profile u.data_profile
  key_findings := rep s.key_findings u.key_findings
  viz_results := rep s.viz_results u.viz_results
  chat_history := s.chat_history ++ u.chat_history.getD []
  data_summary := rep s.data_summary u.data_summary
  analysis_plan := rep s.analysis_plan u.analysis_plan
  viz_code := rep s.viz_code u.viz_code
  kpis := rep s.kpis u.kpis
  external_context := rep s.external_context u.external_context
  final_report := rep s.final_report u.final_report
  error_log := rep s.error_log u.error_log
  retry_count := rep s.retry_count u.retry_count

@[simp] theorem mergeState_csv_path (s : AgentState) (u : AgentUpdate) :
    (mergeState s u).csv_path = u.csv_path.getD s.csv_path := rfl

@[simp] theorem mergeState_user_query (s : AgentState) (u : AgentUpdate) :
    (mergeState s u).user_query = u.user_query.getD s.user_query := rfl

@[simp] theorem mergeState_data_profile (s : AgentState) (u : AgentUpdate) :
    (mergeState s u).data_profile = rep s.data_profile u.data_profile := rfl

@[simp] theorem mergeState_key_findings (s : AgentState) (u : AgentUpdate) :
    (mergeState s u).key_findings = rep s.key_findings u.key_findings := rfl

@[simp] theorem mergeState_viz_results (s : AgentState) (u : AgentUpdate) :
    (mergeState s u).viz_results = rep s.viz_results u.viz_results := rfl

@[simp] theorem mergeState_chat_history (s : AgentState) (u : AgentUpdate) :
    (mergeState s u).chat_history = s.chat_history ++ u.chat_history.getD [] := rfl

@[simp] theorem mergeState_data_summary (s : AgentState) (u : AgentUpdate) :
    (mergeState s u).data_summary = rep s.data_summary u.data_summary := rfl

@[simp] theorem mergeState_analysis_plan (s : AgentState) (u : AgentUpdate) :
    (mergeState s u).analysis_plan = rep s.analysis_plan u.analysis_plan := rfl

@[simp] theorem mergeState_viz_code (s : AgentState) (u : AgentUpdate) :
    (mergeState s u).viz_code = rep s.viz_code u.viz_code := rfl

@[simp] theorem mergeState_kpis (s : AgentState) (u : AgentUpdate) :
    (mergeState s u).kpis = rep s.kpis u.kpis := rfl

@[simp] theorem mergeState_external_context (s : AgentState) (u : AgentUpdate) :
    (mergeState s u).external_context = rep s.external_context u.external_context := rfl

@[simp] theorem mergeState_final_report (s : AgentState) (u : AgentUpdate) :
    (mergeState s u).final_report = rep s.final_report u.final_report := rfl

@[simp] theorem mergeState_error_log (s : AgentState) (u : AgentUpdate) :
    (mergeState s u).error_log = rep s.error_log u.error_log := rfl

@[simp] theorem mergeState_retry_count (s : AgentState) (u : AgentUpdate) :
    (mergeState s u).retry_count = rep s.retry_count u.retry_count := rfl

/-- The external world a run observes: the filesystem and the outcomes of
the CSV statistics, the LLM calls and the `exec` of generated code.  Each
field abstracts exactly one external computation of one node; the node's
own control flow stays in the node definitions below. -/
structure World where
  /-- Does a path exist on disk (`os.path.exists`, and success of
  `pd.read_csv`)? -/
  fileExists : String → Bool
  /-- `os.path.abspath`. -/
  abspath : String → String
  /-- Content of the profile dict `profiler_node` computes from the CSV. -/
  profileOf : String → String
  /-- The `data_summary` string `profiler_node` computes from the CSV. -/
  summaryOf : String → String
  /-- The health score `auditor_node` computes:
  `int((1 - nulls / size) * 100)`. -/
  healthScoreOf : String → Int
  /-- The KPI dict `kpi_node` computes from the CSV. -/
  kpisOf : String → String
  /-- The LLM reply of `context_weaver_node`, given `data_summary`. -/
  contextOf : String → String
  /-- The LLM reply of `strategist_node` after JSON parsing, given
  `data_summary`: `none` models the `except` branch (parse failure). -/
  planOf : String → Option (List PlanItem)
  /-- The code string `coder_node` obtains from the LLM, given the
  analysis plan and the current `error_log` value. -/
  coderOf : List PlanItem → String → String
  /-- Outcome of `exec` on a code string: `none` means it ran without an
  exception, `some m` means it raised an exception whose `str` is `m`
  (possibly the empty string, e.g. a bare failing `assert`). -/
  execOutcome : String → Option String
  /-- The analyst LLM output, given the KPI text, the external context and
  the current `viz_results`. -/
  analystOf : String → String → List Viz → AnalystData
  /-- The chat LLM reply of `follow_up_node`, given the profile, the
  findings, the chat history and the user query. -/
  followUpOf : ProfileData → List String → List String → String → String

/-- Result of running one node: a returned update, or an uncaught
Python exception (which aborts the whole invocation). -/
inductive NodeResult where
  | ok (u : AgentUpdate)
  | raise (msg : String)
deriving DecidableEq, Repr

/-- The update `profiler_node` returns when the file exists: the profile,
the summary, and the reset fields (master_agent.py lines 71-78). -/
def profilerOkUpdate (w : World) (target : String) : AgentUpdate :=
  { data_profile := some { payload := w.profileOf target }
    data_summary := some (w.summaryOf target)
    chat_history := some []
    viz_results := some []
    key_findings := some []
    retry_count := some 0 }

/-- The update `profiler_node` returns when the file is missing
(master_agent.py line 57): an encoded error, no profile. -/
def profilerErrUpdate (target : String) : AgentUpdate :=
  { error_log := some ("File not found at " ++ target)
    retry_count := some 5 }

/-- `profiler_node` (master_agent.py lines 54-78): a missing file is
encoded as an error update with `retry_count = 5`; otherwise the profile,
summary and the reset fields are returned.  `state[csv_path]` with an
absent key or `None` raises (KeyError / TypeError in `os.path.abspath`). -/
def profiler_node (w : World) (s : AgentState) : NodeResult :=
  match s.csv_path with
  | none => .raise "TypeError: csv_path"
  | some p =>
    let target := w.abspath p
    if w.fileExists target then .ok (profilerOkUpdate w target)
    else .ok (profilerErrUpdate target)

/-- `auditor_node` (lines 80-87): reads the CSV (raising if the file is
gone), computes the health grade from the score, and returns the profile
dict extended with the two health keys.  A missing `data_profile` key
raises. -/
def auditor_node (w : World) (s : AgentState) : NodeResult :=
  match s.csv_path with
  | none => .raise "ValueError: csv_path is None"
  | some p =>
    if w.fileExists p then
      let score := w.healthScoreOf p
      let grade := if 90 < score then "A" else if 75 < score then "B" else "C"
      match s.data_profile with
      | none => .raise "KeyError: data_profile"
      | some prof =>
        .ok { data_profile :=
                some { prof with health_grade := some grade
                                 health_score := some score } }
    else .raise ("FileNotFoundError: " ++ p)

/-- `sanitizer_node` (lines 89-101): fills nulls and writes the cleaned
CSV to a fixed path (the write itself is an external effect; a world in
which the later nodes run has `fileExists` true for that path), then
points `csv_path` at it and sets `error_log` to a status string. -/
def sanitizer_node (w : World) (s : AgentState) : NodeResult :=
  match s.csv_path with
  | none => .raise "ValueError: csv_path is None"
  | some p =>
    if w.fileExists p then
      .ok { csv_path := some (some "static/cleaned_data.csv")
            error_log := some "Data Sanitized." }
    else .raise ("FileNotFoundError: " ++ p)

/-- `kpi_node` (lines 103-110). -/
def kpi_node (w : World) (s : AgentState) : NodeResult :=
  match s.csv_path with
  | none => .raise "ValueError: csv_path is None"
  | some p =>
    if w.fileExists p then .ok { kpis := some (w.kpisOf p) }
    else .raise ("FileNotFoundError: " ++ p)

/-- `context_weaver_node` (lines 112-116): the prompt interpolates
`state[data_summary]`, raising if the key is absent. -/
def context_weaver_node (w : World) (s : AgentState) : NodeResult :=
  match s.data_summary with
  | none => .raise "KeyError: data_summary"
  | some sm => .ok { external_context := some (w.contextOf sm) }

/-- `strategist_node` (lines 118-127): a JSON parse failure is caught and
encoded as an `error_log` update that does not set `analysis_plan`. -/
def strategist_node (w : World) (s : AgentState) : NodeResult :=
  match s.data_summary with
  | none => .raise "KeyError: data_summary"
  | some sm =>
    match w.planOf sm with
    | some plan => .ok { analysis_plan := some plan }
    | none => .ok { error_log := some "Strategist JSON parsing failure" }

/-- `coder_node` (lines 129-142): reads `state[analysis_plan]` and
`state[error_log]` (each raising when absent) and returns the generated
code. -/
def coder_node (w : World) (s : AgentState) : NodeResult :=
  match s.analysis_plan with
  | none => .raise "KeyError: analysis_plan"
  | some plan =>
    match s.error_log with
    | none => .raise "KeyError: error_log"
    | some err => .ok { viz_code := some (w.coderOf plan err) }

/-- `executor_node` (lines 144-155): reads the CSV, then runs the
generated code inside `try`.  Any exception in the `try` block -- the
`exec` itself, a missing `viz_code` key, or a missing `analysis_plan` key
while building the results -- is caught and returned as
`error_log = str(e)` with the retry counter incremented.  A missing
`retry_count` key raises in the `try` return and again, uncaught, in the
`except` return, so the node raises. -/
def executor_node (w : World) (s : AgentState) : NodeResult :=
  match s.csv_path with
  | none => .raise "ValueError: csv_path is None"
  | some p =>
    if w.fileExists p then
      match s.retry_count with
      | none => .raise "KeyError: retry_count"
      | some rc =>
        match s.viz_code with
        | none =>
          .ok { error_log := some "\x27viz_code\x27", retry_count := some (rc + 1) }
        | some code =>
          match w.execOutcome code with
          | some emsg => .ok { error_log := some emsg, retry_count := some (rc + 1) }
          | none =>
            match s.analysis_plan with
            | none =>
              .ok { error_log := some "\x27analysis_plan\x27"
                    retry_count := some (rc + 1) }
            | some plan =>
              .ok { viz_results :=
                      some (plan.enum.map fun it =>
                        { title := it.2.title
                          path := "static/plot_" ++ toString it.1 ++ ".png" })
                    error_log := some ""
                    retry_count := some (rc + 1) }
    else .raise ("FileNotFoundError: " ++ p)

/-- The enrichment loop of `analyst_node` (lines 173-176): every viz
entry gains a description, defaulting to "Significant trend detected.". -/
def enrichViz (data : AnalystData) (vz : List Viz) : List Viz :=
  vz.map fun v =>
    { v with description := some ((data.descOf v.path).getD "Significant trend detected.") }

/-- `analyst_node` (lines 157-178): the context string interpolates
`state[kpis]`, `state[external_context]` and `state[viz_results]` (each
raising when absent); the LLM output (or the parse-failure fallback) gives
the findings, and each viz entry gains a description defaulting to
"Significant trend detected.". -/
def analyst_node (w : World) (s : AgentState) : NodeResult :=
  match s.kpis with
  | none => .raise "KeyError: kpis"
  | some kp =>
    match s.external_context with
    | none => .raise "KeyError: external_context"
    | some ec =>
      match s.viz_results with
      | none => .raise "KeyError: viz_results"
      | some vz =>
        .ok { key_findings := some (w.analystOf kp ec vz).findings
              viz_results := some (enrichViz (w.analystOf kp ec vz) vz)
              final_report := some (w.analystOf kp ec vz).raw }

/-- `pdf_generator_node` (lines 180-204): reads `state[viz_results]`
(raising when absent; `external_context` is read with `.get` and never
raises), renders the PDF as an external effect, and returns the report
path message. -/
def pdf_generator_node (s : AgentState) : NodeResult :=
  match s.viz_results with
  | none => .raise "KeyError: viz_results"
  | some _ =>
    .ok { final_report := some "Report Generated: static/Executive_Report.pdf" }

/-- `follow_up_node` (lines 206-215): the system prompt interpolates
`state[data_profile]` and `state[key_findings]` (each raising when
absent); the chat history is read with `.get` (never raises); the human
message interpolates `state[user_query]` (raising when absent or `None`).
The returned update carries only the one-element `chat_history`. -/
def follow_up_node (w : World) (s : AgentState) : NodeResult :=
  match s.data_profile with
  | none => .raise "KeyError: data_profile"
  | some prof =>
    match s.key_findings with
    | none => .raise "KeyError: key_findings"
    | some ks =>
      match s.user_query with
      | none => .raise "KeyError: user_query"
      | some q => .ok { chat_history := some [w.followUpOf prof ks s.chat_history q] }

/-- `route_start` (lines 219-224): a follow-up iff `user_query` is truthy
and `csv_path` is falsy, both read with `.get` on the merged state (absent,
`None` and the empty string are all falsy). -/
def route_start (s : AgentState) : String :=
  if s.user_query.getD "" ≠ "" ∧ s.csv_path.getD "" = "" then "chat"
  else "profiler"

/-- `router` (lines 226-229): retry iff `error_log` is truthy and
`retry_count < 3`.  The source indexes both keys directly; in the graph
this router only ever runs on the post-merge state of `executor_node`,
which always writes both, so the total `getD` reading agrees with the
source at every reachable evaluation. -/
def router (s : AgentState) : String :=
  if s.error_log.getD "" ≠ "" ∧ s.retry_count.getD 0 < 3 then "retry"
  else "finalize"

/-- The node registry of the workflow (lines 234-244). -/
def nodeFn (w : World) (name : String) : AgentState → NodeResult :=
  if name = "profiler" then profiler_node w
  else if name = "auditor" then auditor_node w
  else if name = "sanitizer" then sanitizer_node w
  else if name = "kpi" then kpi_node w
  else if name = "context" then context_weaver_node w
  else if name = "strategist" then strategist_node w
  else if name = "coder" then coder_node w
  else if name = "executor" then executor_node w
  else if name = "analyst" then analyst_node w
  else if name = "pdf" then pdf_generator_node
  else if name = "chat" then follow_up_node w
  else fun _ => .raise ("unknown node " ++ name)

/-- The edge wiring of the workflow (lines 255-268): the linear analysis
path, the conditional edge after `executor` mapping `retry` to `coder`
and `finalize` to `analyst`, and both terminal edges (`none` is END). -/
def nextNode (name : String) (s : AgentState) : Option String :=
  if name = "profiler" then some "auditor"
  else if name = "auditor" then some "sanitizer"
  else if name = "sanitizer" then some "kpi"
  else if name = "kpi" then some "context"
  else if name = "context" then some "strategist"
  else if name = "strategist" then some "coder"
  else if name = "coder" then some "executor"
  else if name = "executor" then
    if router s = "retry" then some "coder" else some "analyst"
  else if name = "analyst" then some "pdf"
  else none

@[simp] theorem nodeFn_profiler (w : World) : nodeFn w "profiler" = profiler_node w := rfl

@[simp] theorem nodeFn_auditor (w : World) : nodeFn w "auditor" = auditor_node w := rfl

@[simp] theorem nodeFn_sanitizer (w : World) : nodeFn w "sanitizer" = sanitizer_node w := rfl

@[simp] theorem nodeFn_kpi (w : World) : nodeFn w "kpi" = kpi_node w := rfl

@[simp] theorem nodeFn_context (w : World) : nodeFn w "context" = context_weaver_node w := rfl

@[simp] theorem nodeFn_strategist (w : World) : nodeFn w "strategist" = strategist_node w := rfl

@[simp] theorem nodeFn_coder (w : World) : nodeFn w "coder" = coder_node w := rfl

@[simp] theorem nodeFn_executor (w : World) : nodeFn w "executor" = executor_node w := rfl

@[simp] theorem nodeFn_analyst (w : World) : nodeFn w "analyst" = analyst_node w := rfl

@[simp] theorem nodeFn_pdf (w : World) : nodeFn w "pdf" = pdf_generator_node := rfl

@[simp] theorem nodeFn_chat (w : World) : nodeFn w "chat" = follow_up_node w := rfl

@[simp] theorem nextNode_profiler (s : AgentState) : nextNode "profiler" s = some "auditor" := rfl

@[simp] theorem nextNode_auditor (s : AgentState) : nextNode "auditor" s = some "sanitizer" := rfl

@[simp] theorem nextNode_sanitizer (s : AgentState) : nextNode "sanitizer" s = some "kpi" := rfl

@[simp] theorem nextNode_kpi (s : AgentState) : nextNode "kpi" s = some "context" := rfl

@[simp] theorem nextNode_context (s : AgentState) : nextNode "context" s = some "strategist" := rfl

@[simp] theorem nextNode_strategist (s : AgentState) : nextNode "strategist" s = some "coder" := rfl

@[simp] theorem nextNode_coder (s : AgentState) : nextNode "coder" s = some "executor" := rfl

@[simp] theorem nextNode_executor (s : AgentState) :
    nextNode "executor" s = if router s = "retry" then some "coder" else some "analyst" := rfl

@[simp] theorem nextNode_analyst (s : AgentState) : nextNode "analyst" s = some "pdf" := rfl

@[simp] theorem nextNode_pdf (s : AgentState) : nextNode "pdf" s = none := rfl

@[simp] theorem nextNode_chat (s : AgentState) : nextNode "chat" s = none := rfl

/-- Result of one `invoke`: the final merged state at END, or an
engine-level execution error (a node raised, or the recursion limit was
hit). -/
inductive InvokeResult where
  | final (s : AgentState)
  | error (msg : String)
deriving DecidableEq, Repr

/-- One row of the execution log: the node that completed, the
update it returned, and the checkpoint persisted right after merging it. -/
abbrev LogEntry := String × AgentUpdate × AgentState

/-- Modelled from the spec (section 4.3, steps 4-5): the execution loop
of the LangGraph runtime, which is not repository source.  From the
current node: run it (an uncaught exception aborts the run at once),
merge its update, persist a checkpoint, pick the next node from the
edges, and stop at END.  `fuel` is the engine's recursion limit.  The
returned log lists, in order, one entry per completed node step. -/
def runFrom (w : World) : Nat → String → AgentState → List LogEntry × InvokeResult
  | 0, _, _ => ([], .error "GraphRecursionError")
  | fuel + 1, cur, s =>
    match nodeFn w cur s with
    | .raise msg => ([], .error msg)
    | .ok u =>
      match nextNode cur (mergeState s u) with
      | none => ([(cur, u, mergeState s u)], .final (mergeState s u))
      | some nxt =>
        ((cur, u, mergeState s u) :: (runFrom w fuel nxt (mergeState s u)).1,
         (runFrom w fuel nxt (mergeState s u)).2)

/-- Modelled from the spec (section 4.4): the checkpoint store
(`InMemorySaver`), a map from session id to the latest state snapshot. -/
abbrev Store := List (String × AgentState)

/-- Load the checkpoint for a session id, or the empty state. -/
def getCk (st : Store) (sid : String) : AgentState :=
  ((st.find? fun e => e.1 = sid).map fun e => e.2).getD {}

/-- Persist a snapshot for a session id. -/
def putCk (st : Store) (sid : String) (s : AgentState) : Store :=
  (sid, s) :: st

/-- Modelled from the spec (section 4.3, steps 1-3): `invoke`.  Load the
checkpoint (empty on a fresh session), merge the input update into it,
evaluate the conditional entry router on the merged state, run the loop,
and persist every per-step checkpoint of the log into the store. -/
def invoke (w : World) (fuel : Nat) (st : Store) (sid : String)
    (input : AgentUpdate) : Store × InvokeResult × List LogEntry :=
  let s1 := mergeState (getCk st sid) input
  let r := runFrom w fuel (route_start s1) s1
  (r.1.foldl (fun acc e => putCk acc sid e.2.2) st, r.2, r.1)

/-- The per-step checkpoint discipline: starting from `s`, every log
entry's stored snapshot is exactly the previous state merged with that
node's returned update. -/
def chkOk : AgentState → List LogEntry → Prop
  | _, [] => True
  | s, (_, u, cp) :: rest => cp = mergeState s u ∧ chkOk cp rest

/-- The snapshot in force after a log: the last stored checkpoint, or the
starting state when no node completed. -/
def lastCk (s : AgentState) : List LogEntry → AgentState
  | [] => s
  | e :: rest => lastCk e.2.2 rest

/-! Concrete worlds and states used to instantiate the theorems below. -/

/-- A benign world: every path exists, every external computation
succeeds, `exec` of generated code raises nothing. -/
def wEx : World where
  fileExists := fun _ => true
  abspath := fun p => "/abs/" ++ p
  profileOf := fun _ => "profile"
  summaryOf := fun _ => "summary"
  healthScoreOf := fun _ => 95
  kpisOf := fun _ => "kpi"
  contextOf := fun _ => "ctx"
  planOf := fun _ => some [{ title := "t", goal := "g" }]
  coderOf := fun _ _ => "codegen"
  execOutcome := fun _ => none
  analystOf := fun _ _ _ => { findings := ["f1"], descOf := fun _ => none, raw := "raw" }
  followUpOf := fun _ _ _ q => "reply " ++ q

/-- A fully populated session state, as left behind by a completed
analysis run. -/
def stEx : AgentState where
  csv_path := some "static/cleaned_data.csv"
  user_query := none
  data_profile := some { payload := "p0", health_grade := some "A", health_score := some 95 }
  key_findings := some ["k0"]
  viz_results := some [{ title := "t0", path := "static/plot_0.png" }]
  chat_history := ["m1"]
  data_summary := some "sum0"
  analysis_plan := some [{ title := "t", goal := "g" }]
  viz_code := some "code0"
  kpis := some "kpi0"
  external_context := some "ctx0"
  final_report := some "rep0"
  error_log := some ""
  retry_count := some 1

/-- An update touching a REPLACE field, the APPEND field and the retry
counter at once. -/
def updEx : AgentUpdate where
  csv_path := some (some "b.csv")
  chat_history := some ["m2"]
  retry_count := some 2

/-- The exact input `main.py` sends on `/chat`: the follow-up query plus
an explicit `csv_path = None` (the "ERROR FIX" comment, main.py lines
110-115). -/
def chatModeInput : AgentUpdate where
  user_query := some (some "X")
  csv_path := some none

/-- A follow-up input that omits the `csv_path` key entirely instead of
sending an explicit `None`. -/
def followUpNoCsvInput : AgentUpdate where
  user_query := some (some "X")

/-- A state ready for `executor_node`. -/
def sReadyToExec : AgentState where
  csv_path := some "a.csv"
  analysis_plan := some [{ title := "t", goal := "g" }]
  viz_code := some "assert False"
  error_log := some ""
  retry_count := some 0

/-- A world whose `exec` always raises an exception whose text is empty,
as a bare failing `assert` produces. -/
def wEmptyMsg : World := { wEx with execOutcome := fun _ => some "" }

/-! Engine lemmas shared by the checkpointing and abort claims. -/

/-- Every run satisfies the per-step checkpoint discipline: each log
entry's snapshot is the previous state merged with the node's update. -/
theorem chkOk_runFrom (w : World) :
    ∀ (fuel : Nat) (cur : String) (s : AgentState), chkOk s (runFrom w fuel cur s).1
  | 0, _, _ => trivial
  | fuel + 1, cur, s => by
    rw [runFrom]
    split
    · exact trivial
    · rename_i u hu
      split
      · exact ⟨rfl, trivial⟩
      · rename_i nxt hn
        exact ⟨rfl, chkOk_runFrom w fuel nxt (mergeState s u)⟩

/-- One engine step whose node returns an update and whose edge leads
onward: the step is logged with its checkpoint and the run continues at
the next node. -/
theorem runFrom_step_ok (w : World) (fuel : Nat) (cur : String) (s : AgentState)
    (u : AgentUpdate) (nxt : String)
    (h1 : nodeFn w cur s = NodeResult.ok u)
    (h2 : nextNode cur (mergeState s u) = some nxt) :
    runFrom w (fuel + 1) cur s =
      ((cur, u, mergeState s u) :: (runFrom w fuel nxt (mergeState s u)).1,
       (runFrom w fuel nxt (mergeState s u)).2) := by
  rw [runFrom]
  split
  · rename_i m hm
    rw [h1] at hm
    exact NodeResult.noConfusion hm
  · rename_i u2 hu2
    rw [h1] at hu2
    injection hu2 with h3
    subst h3
    split
    · rename_i hn
      rw [h2] at hn
      exact Option.noConfusion hn
    · rename_i nxt2 hn
      rw [h2] at hn
      injection hn with h4
      subst h4
      rfl

/-- One engine step whose node returns an update and whose edge reaches
END: the run stops with the merged state as the final state. -/
theorem runFrom_step_end (w : World) (fuel : Nat) (cur : String) (s : AgentState)
    (u : AgentUpdate)
    (h1 : nodeFn w cur s = NodeResult.ok u)
    (h2 : nextNode cur (mergeState s u) = none) :
    runFrom w (fuel + 1) cur s =
      ([(cur, u, mergeState s u)], InvokeResult.final (mergeState s u)) := by
  rw [runFrom]
  split
  · rename_i m hm
    rw [h1] at hm
    exact NodeResult.noConfusion hm
  · rename_i u2 hu2
    rw [h1] at hu2
    injection hu2 with h3
    subst h3
    split
    · rfl
    · rename_i nxt2 hn
      rw [h2] at hn
      exact Option.noConfusion hn

/-- A run that ends in an execution error without exhausting its fuel
stopped because the node right after the logged steps raised, evaluated
at the last persisted snapshot. -/
theorem runFrom_error_from_raise (w : World) :
    ∀ (fuel : Nat) (cur : String) (s : AgentState) (log : List LogEntry) (msg : String),
      runFrom w fuel cur s = (log, InvokeResult.error msg) → log.length < fuel →
      ∃ cur2 s2, nodeFn w cur2 s2 = NodeResult.raise msg ∧ s2 = lastCk s log
  | 0, cur, s, log, msg => by
    intro h hlen
    simp only [runFrom, Prod.mk.injEq] at h
    obtain ⟨rfl, -⟩ := h
    exact absurd hlen (by simp)
  | fuel + 1, cur, s, log, msg => by
    intro h hlen
    rw [runFrom] at h
    split at h
    · rename_i m hno
      simp only [Prod.mk.injEq, InvokeResult.error.injEq] at h
      obtain ⟨rfl, rfl⟩ := h
      exact ⟨cur, s, hno, rfl⟩
    · rename_i u hu
      split at h
      · rename_i hn
        simp only [Prod.mk.injEq] at h
        exact absurd h.2 (by simp)
      · rename_i nxt hn
        simp only [Prod.mk.injEq] at h
        obtain ⟨rfl, hr2⟩ := h
        have hr : runFrom w fuel nxt (mergeState s u) =
            ((runFrom w fuel nxt (mergeState s u)).1, InvokeResult.error msg) := by
          rw [← hr2]
        have hlen2 : (runFrom w fuel nxt (mergeState s u)).1.length < fuel := by
          simp only [List.length_cons] at hlen
          omega
        obtain ⟨c2, s2, hra, hlast⟩ :=
          runFrom_error_from_raise w fuel nxt (mergeState s u)
            (runFrom w fuel nxt (mergeState s u)).1 msg hr hlen2
        exact ⟨c2, s2, hra, hlast⟩

/-!  The claims. -/

/-- C1: merging a node's update into the session state follows the
per-field policy of the `AgentState` schema: every REPLACE field carried
by the update ends up with exactly the update's value (sequences replaced
in full), the APPEND field `chat_history` becomes the existing list
followed by the update's list, and an update without `chat_history`
leaves it unchanged. -/
theorem merge_follows_field_policy (s : AgentState) (u : AgentUpdate) :
    (∀ v, u.csv_path = some v → (mergeState s u).csv_path = v) ∧
    (∀ v, u.user_query = some v → (mergeState s u).user_query = v) ∧
    (∀ v, u.data_profile = some v → (mergeState s u).data_profile = some v) ∧
    (∀ v, u.key_findings = some v → (mergeState s u).key_findings = some v) ∧
    (∀ v, u.viz_results = some v → (mergeState s u).viz_results = some v) ∧
    (∀ v, u.data_summary = some v → (mergeState s u).data_summary = some v) ∧
    (∀ v, u.analysis_plan = some v → (mergeState s u).analysis_plan = some v) ∧
    (∀ v, u.viz_code = some v → (mergeState s u).viz_code = some v) ∧
    (∀ v, u.kpis = some v → (mergeState s u).kpis = some v) ∧
    (∀ v, u.external_context = some v → (mergeState s u).external_context = some v) ∧
    (∀ v, u.final_report = some v → (mergeState s u).final_report = some v) ∧
    (∀ v, u.error_log = some v → (mergeState s u).error_log = some v) ∧
    (∀ v, u.retry_count = some v → (mergeState s u).retry_count = some v) ∧
    (mergeState s u).chat_history = s.chat_history ++ u.chat_history.getD [] ∧
    (u.chat_history = none → (mergeState s u).chat_history = s.chat_history) := by
  refine ⟨?_, ?_, ?_, ?_, ?_, ?_, ?_, ?_, ?_, ?_, ?_, ?_, ?_, rfl,
    fun h => by simp [h]⟩ <;> (intro v h; simp [h])

/-- Witness for C1 at a concrete state and update. -/
theorem merge_follows_field_policy_witness :
    (mergeState stEx updEx).csv_path = some "b.csv" ∧
    (mergeState stEx updEx).chat_history = ["m1", "m2"] ∧
    (mergeState stEx updEx).retry_count = some 2 := by
  obtain ⟨h1, -, -, -, -, -, -, -, -, -, -, -, h13, h14, -⟩ :=
    merge_follows_field_policy stEx updEx
  refine ⟨h1 (some "b.csv") rfl, ?_, h13 2 rfl⟩
  rw [h14]; rfl

/-- C3 counterexample: the conditional entry router runs on the merged
state (checkpoint merged with input), so for an input that omits the
`csv_path` key the entry node depends on the stored checkpoint: a fresh
session routes to `chat`, a session whose checkpoint still holds a
`csv_path` routes to `profiler`.  This is exactly why `main.py` sends an
explicit `csv_path = None` on `/chat`. -/
theorem entry_depends_on_checkpoint :
    route_start (mergeState {} followUpNoCsvInput) = "chat" ∧
    route_start (mergeState stEx followUpNoCsvInput) = "profiler" ∧
    route_start (mergeState {} followUpNoCsvInput) ≠
      route_start (mergeState stEx followUpNoCsvInput) := by
  refine ⟨by decide, by decide, by decide⟩

/-- C3 amended: the entry decision is a function of the merged state, and
it is checkpoint-independent exactly when the initial input explicitly
carries both `user_query` and `csv_path` -- which both call sites in
`main.py` do (`/analyze` sends `user_query = None`, `/chat` sends
`csv_path = None`). -/
theorem entry_input_determined_when_fields_sent (input : AgentUpdate)
    (hq : input.user_query ≠ none) (hp : input.csv_path ≠ none)
    (ck1 ck2 : AgentState) :
    route_start (mergeState ck1 input) = route_start (mergeState ck2 input) := by
  obtain ⟨q, hq⟩ := Option.ne_none_iff_exists'.mp hq
  obtain ⟨p, hp⟩ := Option.ne_none_iff_exists'.mp hp
  simp [route_start, hq, hp]

/-- Witness for the amended C3 at the concrete `/chat` input, against the
empty checkpoint and a populated one. -/
theorem entry_input_determined_witness :
    route_start (mergeState {} chatModeInput) =
      route_start (mergeState stEx chatModeInput) :=
  entry_input_determined_when_fields_sent chatModeInput (by decide) (by decide) {} stEx

/-- C4 counterexample: the claim also covers an input whose `csv_path`
key is absent (not an explicit `None`), and there it fails: on a session
whose checkpoint still holds a `csv_path`, the input `{user_query:"X"}`
enters at `profiler`, not at the abbreviated `chat` node, because the
entry router sees the checkpointed `csv_path` in the merged state. -/
theorem entry_absent_csv_routes_to_profiler :
    route_start (mergeState stEx followUpNoCsvInput) = "profiler" ∧
    route_start (mergeState stEx followUpNoCsvInput) ≠ "chat" := by
  exact ⟨by decide, by decide⟩

/-- C4 amended: for every checkpoint, an input carrying a non-empty
`user_query` and an explicit `csv_path = None` enters at `chat`, and an
input carrying a non-empty `csv_path` enters at `profiler`; an input
whose `csv_path` key is absent enters at `chat` only when the
checkpoint's own `csv_path` is falsy (absent, `None` or empty). -/
theorem entry_routing_cases (ck : AgentState) (q p : String)
    (hq : q ≠ "") (hp : p ≠ "") :
    route_start (mergeState ck { user_query := some (some q), csv_path := some none }) = "chat" ∧
    route_start (mergeState ck { csv_path := some (some p) }) = "profiler" ∧
    (ck.csv_path.getD "" = "" →
      route_start (mergeState ck { user_query := some (some q) }) = "chat") := by
  refine ⟨?_, ?_, fun h => ?_⟩
  · simp [route_start, hq]
  · simp [route_start, hp]
  · simp [route_start, hq, h]

/-- Witness for the amended C4 at the two concrete inputs of the spec
plus the absent-key input on a fresh checkpoint. -/
theorem entry_routing_cases_witness :
    route_start (mergeState {} { user_query := some (some "X"), csv_path := some none }) = "chat" ∧
    route_start (mergeState {} { csv_path := some (some "file.csv") }) = "profiler" ∧
    route_start (mergeState {} { user_query := some (some "X") }) = "chat" := by
  have h := entry_routing_cases {} "X" "file.csv" (by decide) (by decide)
  exact ⟨h.1, h.2.1, h.2.2 (by decide)⟩

/-- C6 amended: every execution of `executor_node` (on a readable CSV,
with `retry_count` and `viz_code` present) returns an update whose
`retry_count` is the input's plus one; when the `exec` raises no
exception the returned `error_log` is the empty string, and when it
raises the returned `error_log` is the exception's text -- which the code
does not guarantee to be non-empty. -/
theorem executor_updates (w : World) (s : AgentState) (p code : String)
    (rc : Int) (plan : List PlanItem)
    (hcsv : s.csv_path = some p) (hex : w.fileExists p = true)
    (hrc : s.retry_count = some rc) (hcode : s.viz_code = some code)
    (hplan : s.analysis_plan = some plan) :
    (w.execOutcome code = none →
      executor_node w s = NodeResult.ok
        { viz_results := some (plan.enum.map fun it =>
            { title := it.2.title, path := "static/plot_" ++ toString it.1 ++ ".png" })
          error_log := some ""
          retry_count := some (rc + 1) }) ∧
    (∀ m, w.execOutcome code = some m →
      executor_node w s = NodeResult.ok
        { error_log := some m, retry_count := some (rc + 1) }) := by
  constructor
  · intro h
    simp [executor_node, hcsv, hex, hrc, hcode, hplan, h]
  · intro m h
    simp [executor_node, hcsv, hex, hrc, hcode, hplan, h]

/-- Witness for the amended C6: a successful attempt increments the
counter and clears the error indicator. -/
theorem executor_updates_witness :
    executor_node wEx sReadyToExec = NodeResult.ok
      { viz_results := some [{ title := "t", path := "static/plot_0.png" }]
        error_log := some ""
        retry_count := some 1 } := by
  have h := (executor_updates wEx sReadyToExec "a.csv" "assert False" 0
    [{ title := "t", goal := "g" }] rfl rfl rfl rfl rfl).1 rfl
  rw [h]; rfl

/-- C6 counterexample: an attempt whose `exec` raises an exception with
empty text (for example a bare failing `assert`) returns
`error_log = ""`, so the returned `error_log` on failure is not always
non-empty -- this attempt is even routed as a success afterwards. -/
theorem executor_error_text_can_be_empty :
    wEmptyMsg.execOutcome "assert False" = some "" ∧
    executor_node wEmptyMsg sReadyToExec =
      NodeResult.ok { error_log := some "", retry_count := some 1 } ∧
    router (mergeState sReadyToExec { error_log := some "", retry_count := some 1 }) =
      "finalize" := by
  refine ⟨rfl, by decide, by decide⟩

/-- C10: re-running the full pipeline on a session that already has chat
history leaves the history intact: the profiler's update sets
`chat_history` to the empty list, which under APPEND is an identity,
while its REPLACE fields `viz_results`, `key_findings` and `retry_count`
are reset to `[]`, `[]` and `0`. -/
theorem profiler_rerun_preserves_history (w : World) (s : AgentState) (p : String)
    (hcsv : s.csv_path = some p) (hex : w.fileExists (w.abspath p) = true) :
    profiler_node w s = NodeResult.ok (profilerOkUpdate w (w.abspath p)) ∧
    (profilerOkUpdate w (w.abspath p)).chat_history = some [] ∧
    (mergeState s (profilerOkUpdate w (w.abspath p))).chat_history = s.chat_history ∧
    (mergeState s (profilerOkUpdate w (w.abspath p))).viz_results = some [] ∧
    (mergeState s (profilerOkUpdate w (w.abspath p))).key_findings = some [] ∧
    (mergeState s (profilerOkUpdate w (w.abspath p))).retry_count = some 0 := by
  refine ⟨?_, rfl, ?_, ?_, ?_, ?_⟩
  · simp [profiler_node, hcsv, hex]
  · simp [profilerOkUpdate]
  · simp [profilerOkUpdate]
  · simp [profilerOkUpdate]
  · simp [profilerOkUpdate]

/-- C7: in every invocation, after each single node execution the
checkpoint stored for the session equals the state merged with that
node's update, and the resulting store is exactly the starting store with
those per-step snapshots persisted in order -- no node runs twice in one
cycle without its first effect having been stored.  (The execution loop
and store are modelled from the spec, sections 4.3-4.4.) -/
theorem checkpoint_per_step (w : World) (fuel : Nat) (st : Store) (sid : String)
    (input : AgentUpdate) :
    chkOk (mergeState (getCk st sid) input) (invoke w fuel st sid input).2.2 ∧
    (invoke w fuel st sid input).1 =
      (invoke w fuel st sid input).2.2.foldl (fun acc e => putCk acc sid e.2.2) st :=
  ⟨chkOk_runFrom w fuel (route_start (mergeState (getCk st sid) input))
      (mergeState (getCk st sid) input), rfl⟩

/-- C8: when an invocation ends in an execution error without exhausting
the engine's recursion limit, some node raised: the log holds exactly the
nodes completed before the fault with their per-step checkpoints, the
store persists exactly those snapshots, the raising node was evaluated at
the last persisted snapshot (so nothing after it ran), and the caller's
result is distinct from every normal final state. -/
theorem node_exception_aborts (w : World) (fuel : Nat) (st : Store) (sid : String)
    (input : AgentUpdate) (st2 : Store) (log : List LogEntry) (msg : String)
    (h : invoke w fuel st sid input = (st2, InvokeResult.error msg, log))
    (hlen : log.length < fuel) :
    chkOk (mergeState (getCk st sid) input) log ∧
    st2 = log.foldl (fun acc e => putCk acc sid e.2.2) st ∧
    (∃ cur2 s2, nodeFn w cur2 s2 = NodeResult.raise msg ∧
      s2 = lastCk (mergeState (getCk st sid) input) log) ∧
    (∀ f, InvokeResult.error msg ≠ InvokeResult.final f) := by
  have h1 : (runFrom w fuel (route_start (mergeState (getCk st sid) input))
      (mergeState (getCk st sid) input)).1 = log :=
    congrArg (fun x => x.2.2) h
  have h2 : (runFrom w fuel (route_start (mergeState (getCk st sid) input))
      (mergeState (getCk st sid) input)).2 = InvokeResult.error msg :=
    congrArg (fun x => x.2.1) h
  have hrun : runFrom w fuel (route_start (mergeState (getCk st sid) input))
      (mergeState (getCk st sid) input) = (log, InvokeResult.error msg) := by
    rw [← h1, ← h2]
  have hck := chkOk_runFrom w fuel (route_start (mergeState (getCk st sid) input))
      (mergeState (getCk st sid) input)
  rw [h1] at hck
  have h0 : (runFrom w fuel (route_start (mergeState (getCk st sid) input))
      (mergeState (getCk st sid) input)).1.foldl
        (fun acc e => putCk acc sid e.2.2) st = st2 :=
    congrArg (fun x => x.1) h
  rw [h1] at h0
  refine ⟨hck, h0.symm, ?_, fun f hf => InvokeResult.noConfusion hf⟩
  exact runFrom_error_from_raise w fuel
    (route_start (mergeState (getCk st sid) input))
    (mergeState (getCk st sid) input) log msg hrun hlen

/-- Witness for C8: a `/chat` invoke on a fresh session makes
`follow_up_node` raise on the absent `data_profile`; the run aborts with
an execution error, no checkpoint is written, and the result differs from
every final state. -/
theorem node_exception_aborts_witness :
    invoke wEx 5 [] "S" chatModeInput =
      ([], InvokeResult.error "KeyError: data_profile", []) ∧
    chkOk (mergeState (getCk [] "S") chatModeInput) [] ∧
    InvokeResult.error "KeyError: data_profile" ≠ InvokeResult.final stEx := by
  have h := node_exception_aborts wEx 5 [] "S" chatModeInput [] []
    "KeyError: data_profile" (by decide) (by decide)
  exact ⟨by decide, h.1, h.2.2.2 stEx⟩

/-- Witness for C10 on the populated session state. -/
theorem profiler_rerun_preserves_history_witness :
    profiler_node wEx stEx =
      NodeResult.ok (profilerOkUpdate wEx "/abs/static/cleaned_data.csv") ∧
    (mergeState stEx (profilerOkUpdate wEx "/abs/static/cleaned_data.csv")).chat_history
      = ["m1"] ∧
    (mergeState stEx (profilerOkUpdate wEx "/abs/static/cleaned_data.csv")).retry_count
      = some 0 := by
  have h := profiler_rerun_preserves_history wEx stEx "static/cleaned_data.csv" rfl rfl
  exact ⟨h.1, h.2.2.1, h.2.2.2.2.2⟩

/-- The input `/analyze` sends (main.py line 69): the uploaded file path
plus an explicit `user_query = None`. -/
def missingFileInput (p : String) : AgentUpdate where
  csv_path := some (some p)
  user_query := some none

/-- A world in which no path exists on disk. -/
def wNoFile : World := { wEx with fileExists := fun _ => false }

/-- C9: invoking with a `csv_path` naming a non-existent file does not
make `profiler_node` raise: it returns the encoded update
`error_log = "File not found at ..."`, `retry_count = 5`, with no
`data_profile`; the unconditional edge then sends control to
`auditor_node`, which raises on the missing file, so the invocation still
aborts with an engine-level error after the profiler's checkpoint was
persisted. -/
theorem missing_file_aborts (w : World) (st : Store) (sid p : String) (k : Nat)
    (habs : w.fileExists (w.abspath p) = false)
    (hrel : w.fileExists p = false) :
    route_start (mergeState (getCk st sid) (missingFileInput p)) = "profiler" ∧
    profiler_node w (mergeState (getCk st sid) (missingFileInput p)) =
      NodeResult.ok (profilerErrUpdate (w.abspath p)) ∧
    (profilerErrUpdate (w.abspath p)).error_log =
      some ("File not found at " ++ w.abspath p) ∧
    (profilerErrUpdate (w.abspath p)).retry_count = some 5 ∧
    (profilerErrUpdate (w.abspath p)).data_profile = none ∧
    nextNode "profiler"
      (mergeState (mergeState (getCk st sid) (missingFileInput p))
        (profilerErrUpdate (w.abspath p))) = some "auditor" ∧
    auditor_node w
      (mergeState (mergeState (getCk st sid) (missingFileInput p))
        (profilerErrUpdate (w.abspath p))) =
      NodeResult.raise ("FileNotFoundError: " ++ p) ∧
    invoke w (k + 2) st sid (missingFileInput p) =
      (putCk st sid
        (mergeState (mergeState (getCk st sid) (missingFileInput p))
          (profilerErrUpdate (w.abspath p))),
       InvokeResult.error ("FileNotFoundError: " ++ p),
       [("profiler", profilerErrUpdate (w.abspath p),
         mergeState (mergeState (getCk st sid) (missingFileInput p))
           (profilerErrUpdate (w.abspath p)))]) := by
  have hentry : route_start (mergeState (getCk st sid) (missingFileInput p)) = "profiler" := by
    simp [route_start, missingFileInput]
  have hprof : profiler_node w (mergeState (getCk st sid) (missingFileInput p)) =
      NodeResult.ok (profilerErrUpdate (w.abspath p)) := by
    simp [profiler_node, missingFileInput, habs]
  have haud : auditor_node w
      (mergeState (mergeState (getCk st sid) (missingFileInput p))
        (profilerErrUpdate (w.abspath p))) =
      NodeResult.raise ("FileNotFoundError: " ++ p) := by
    simp [auditor_node, profilerErrUpdate, missingFileInput, hrel]
  have hrun : runFrom w (k + 2) "profiler"
      (mergeState (getCk st sid) (missingFileInput p)) =
      ([("profiler", profilerErrUpdate (w.abspath p),
        mergeState (mergeState (getCk st sid) (missingFileInput p))
          (profilerErrUpdate (w.abspath p)))],
       InvokeResult.error ("FileNotFoundError: " ++ p)) := by
    simp [runFrom, hprof, haud]
  refine ⟨hentry, hprof, rfl, rfl, rfl, by simp, haud, ?_⟩
  simp [invoke, hentry, hrun]

/-- Witness for C9 at a concrete world and path. -/
theorem missing_file_aborts_witness :
    invoke wNoFile 2 [] "S" (missingFileInput "uploads/x.csv") =
      (putCk [] "S"
        (mergeState (mergeState (getCk [] "S") (missingFileInput "uploads/x.csv"))
          (profilerErrUpdate (wNoFile.abspath "uploads/x.csv"))),
       InvokeResult.error ("FileNotFoundError: " ++ "uploads/x.csv"),
       [("profiler", profilerErrUpdate (wNoFile.abspath "uploads/x.csv"),
         mergeState (mergeState (getCk [] "S") (missingFileInput "uploads/x.csv"))
           (profilerErrUpdate (wNoFile.abspath "uploads/x.csv")))]) ∧
    (profilerErrUpdate (wNoFile.abspath "uploads/x.csv")).error_log =
      some "File not found at /abs/uploads/x.csv" := by
  have h := missing_file_aborts wNoFile [] "S" "uploads/x.csv" 0 rfl rfl
  exact ⟨h.2.2.2.2.2.2.2, by decide⟩

/-- The input `/chat` sends (main.py lines 112-115): the follow-up query
plus an explicit `csv_path = None`. -/
def chatInput (q : String) : AgentUpdate where
  user_query := some (some q)
  csv_path := some none

/-- C5: a follow-up invoke on a session whose checkpoint holds
`data_profile = P` routes through `chat`, whose only update is one new
chat message; the final state still holds `data_profile = P` unchanged
and its chat history grew by exactly one message. -/
theorem follow_up_preserves_profile (w : World) (st : Store) (sid q : String)
    (P : ProfileData) (ks : List String) (k : Nat)
    (hq : q ≠ "")
    (hprof : (getCk st sid).data_profile = some P)
    (hks : (getCk st sid).key_findings = some ks) :
    route_start (mergeState (getCk st sid) (chatInput q)) = "chat" ∧
    follow_up_node w (mergeState (getCk st sid) (chatInput q)) =
      NodeResult.ok { chat_history := some [w.followUpOf P ks
        (mergeState (getCk st sid) (chatInput q)).chat_history q] } ∧
    invoke w (k + 1) st sid (chatInput q) =
      (putCk st sid
        (mergeState (mergeState (getCk st sid) (chatInput q))
          { chat_history := some [w.followUpOf P ks
              (mergeState (getCk st sid) (chatInput q)).chat_history q] }),
       InvokeResult.final
        (mergeState (mergeState (getCk st sid) (chatInput q))
          { chat_history := some [w.followUpOf P ks
              (mergeState (getCk st sid) (chatInput q)).chat_history q] }),
       [("chat",
         { chat_history := some [w.followUpOf P ks
             (mergeState (getCk st sid) (chatInput q)).chat_history q] },
         mergeState (mergeState (getCk st sid) (chatInput q))
          { chat_history := some [w.followUpOf P ks
              (mergeState (getCk st sid) (chatInput q)).chat_history q] })]) ∧
    (mergeState (mergeState (getCk st sid) (chatInput q))
      { chat_history := some [w.followUpOf P ks
          (mergeState (getCk st sid) (chatInput q)).chat_history q] }).data_profile
      = some P ∧
    (mergeState (mergeState (getCk st sid) (chatInput q))
      { chat_history := some [w.followUpOf P ks
          (mergeState (getCk st sid) (chatInput q)).chat_history q] }).chat_history.length
      = (getCk st sid).chat_history.length + 1 := by
  have h1 : route_start (mergeState (getCk st sid) (chatInput q)) = "chat" := by
    simp [route_start, chatInput, hq]
  have h2 : follow_up_node w (mergeState (getCk st sid) (chatInput q)) =
      NodeResult.ok { chat_history := some [w.followUpOf P ks
        (mergeState (getCk st sid) (chatInput q)).chat_history q] } := by
    simp [follow_up_node, chatInput, hprof, hks]
  have hrun : runFrom w (k + 1) "chat" (mergeState (getCk st sid) (chatInput q)) =
      ([("chat",
         { chat_history := some [w.followUpOf P ks
             (mergeState (getCk st sid) (chatInput q)).chat_history q] },
         mergeState (mergeState (getCk st sid) (chatInput q))
          { chat_history := some [w.followUpOf P ks
              (mergeState (getCk st sid) (chatInput q)).chat_history q] })],
       InvokeResult.final
        (mergeState (mergeState (getCk st sid) (chatInput q))
          { chat_history := some [w.followUpOf P ks
              (mergeState (getCk st sid) (chatInput q)).chat_history q] })) := by
    simp [runFrom, h2]
  refine ⟨h1, h2, ?_, by simp [chatInput, hprof], by simp [chatInput]⟩
  simp [invoke, h1, hrun]

/-- The final state of the concrete C5 follow-up run below. -/
def fEx : AgentState where
  csv_path := none
  user_query := some "X"
  data_profile := some { payload := "p0", health_grade := some "A", health_score := some 95 }
  key_findings := some ["k0"]
  viz_results := some [{ title := "t0", path := "static/plot_0.png" }]
  chat_history := ["m1", "reply X"]
  data_summary := some "sum0"
  analysis_plan := some [{ title := "t", goal := "g" }]
  viz_code := some "code0"
  kpis := some "kpi0"
  external_context := some "ctx0"
  final_report := some "rep0"
  error_log := some ""
  retry_count := some 1

/-- Witness for C5: a concrete follow-up run on a stored session keeps
the profile and appends exactly one message. -/
theorem follow_up_preserves_profile_witness :
    (invoke wEx 3 [("S", stEx)] "S" (chatInput "X")).2.1 = InvokeResult.final fEx ∧
    fEx.data_profile =
      some { payload := "p0", health_grade := some "A", health_score := some 95 } ∧
    fEx.chat_history.length = stEx.chat_history.length + 1 := by
  have h := follow_up_preserves_profile wEx [("S", stEx)] "S" "X"
    { payload := "p0", health_grade := some "A", health_score := some 95 } ["k0"] 2
    (by decide) (by decide) (by decide)
  refine ⟨?_, by decide, by decide⟩
  rw [h.2.2.1]
  decide

/-- A state about to enter the coder/executor cycle, with everything the
later analyst and pdf nodes read already present. -/
def sCycle : AgentState :=
  { sReadyToExec with
    kpis := some "kpi0", external_context := some "ctx0", viz_results := some [] }

/-- A world whose `exec` of generated code always raises with text
"boom". -/
def wFail : World := { wEx with execOutcome := fun _ => some "boom" }

/-- C2: when the executor reports a (truthy) error on every attempt, the
coder/executor cycle from `retry_count = 0` runs the executor exactly 3
times: the router answers "retry" after attempts 1 and 2 and "finalize"
after attempt 3 (`retry_count = 3`) even though the error indicator is
still set; control then moves through analyst and pdf to END, so a 4th
attempt never occurs in the invocation. -/
theorem retry_cycle_three_attempts (w : World) (s : AgentState)
    (p e0 kp ec : String) (plan : List PlanItem) (vz : List Viz)
    (hcsv : s.csv_path = some p) (hex : w.fileExists p = true)
    (hrc : s.retry_count = some 0) (herr : s.error_log = some e0)
    (hplan : s.analysis_plan = some plan)
    (hkp : s.kpis = some kp) (hec : s.external_context = some ec)
    (hvz : s.viz_results = some vz)
    (hfail : ∀ c, ∃ m, w.execOutcome c = some m ∧ m ≠ "") :
    ((runFrom w 12 "coder" s).1.map fun e => e.1) =
      ["coder", "executor", "coder", "executor", "coder", "executor",
       "analyst", "pdf"] ∧
    (((runFrom w 12 "coder" s).1.map fun e => e.1).count "executor") = 3 ∧
    (∃ f, (runFrom w 12 "coder" s).2 = InvokeResult.final f) ∧
    (∃ e1, (runFrom w 12 "coder" s).1.get? 1 = some e1 ∧ e1.1 = "executor" ∧
      e1.2.2.retry_count = some 1 ∧ router e1.2.2 = "retry") ∧
    (∃ e3, (runFrom w 12 "coder" s).1.get? 3 = some e3 ∧ e3.1 = "executor" ∧
      e3.2.2.retry_count = some 2 ∧ router e3.2.2 = "retry") ∧
    (∃ e5, (runFrom w 12 "coder" s).1.get? 5 = some e5 ∧ e5.1 = "executor" ∧
      e5.2.2.retry_count = some 3 ∧ e5.2.2.error_log.getD "" ≠ "" ∧
      router e5.2.2 = "finalize") := by
  obtain ⟨m1, hm1, hm1ne⟩ := hfail (w.coderOf plan e0)
  obtain ⟨m2, hm2, hm2ne⟩ := hfail (w.coderOf plan m1)
  obtain ⟨m3, hm3, hm3ne⟩ := hfail (w.coderOf plan m2)
  have hlt1 : (1 : Int) < 3 := by decide
  have hlt2 : (2 : Int) < 3 := by decide
  have hnlt3 : ¬ ((3 : Int) < 3) := by decide
  have hfr : ("finalize" : String) ≠ "retry" := by decide
  -- attempt 1
  have hc1 : coder_node w s = NodeResult.ok { viz_code := some (w.coderOf plan e0) } := by
    simp [coder_node, hplan, herr]
  set s1 := mergeState s { viz_code := some (w.coderOf plan e0) } with hs1
  have h1csv : s1.csv_path = some p := by rw [hs1]; simp [hcsv]
  have h1rc : s1.retry_count = some 0 := by rw [hs1]; simp [hrc]
  have h1code : s1.viz_code = some (w.coderOf plan e0) := by rw [hs1]; simp
  have he1 : executor_node w s1 =
      NodeResult.ok { error_log := some m1, retry_count := some 1 } := by
    simp [executor_node, h1csv, hex, h1rc, h1code, hm1]
  set s2 := mergeState s1 { error_log := some m1, retry_count := some 1 } with hs2
  have h2err : s2.error_log = some m1 := by rw [hs2]; simp
  have h2rc : s2.retry_count = some 1 := by rw [hs2]; simp
  have h2plan : s2.analysis_plan = some plan := by rw [hs2, hs1]; simp [hplan]
  have hr2 : router s2 = "retry" := by simp [router, h2err, h2rc, hm1ne, hlt1]
  -- attempt 2
  have hc2 : coder_node w s2 = NodeResult.ok { viz_code := some (w.coderOf plan m1) } := by
    simp [coder_node, h2plan, h2err]
  set s3 := mergeState s2 { viz_code := some (w.coderOf plan m1) } with hs3
  have h3csv : s3.csv_path = some p := by rw [hs3]; simp [h1csv, hs2]
  have h3rc : s3.retry_count = some 1 := by rw [hs3]; simp [h2rc]
  have h3code : s3.viz_code = some (w.coderOf plan m1) := by rw [hs3]; simp
  have he2 : executor_node w s3 =
      NodeResult.ok { error_log := some m2, retry_count := some 2 } := by
    simp [executor_node, h3csv, hex, h3rc, h3code, hm2]
  set s4 := mergeState s3 { error_log := some m2, retry_count := some 2 } with hs4
  have h4err : s4.error_log = some m2 := by rw [hs4]; simp
  have h4rc : s4.retry_count = some 2 := by rw [hs4]; simp
  have h4plan : s4.analysis_plan = some plan := by rw [hs4, hs3]; simp [h2plan]
  have hr4 : router s4 = "retry" := by simp [router, h4err, h4rc, hm2ne, hlt2]
  -- attempt 3
  have hc3 : coder_node w s4 = NodeResult.ok { viz_code := some (w.coderOf plan m2) } := by
    simp [coder_node, h4plan, h4err]
  set s5 := mergeState s4 { viz_code := some (w.coderOf plan m2) } with hs5
  have h5csv : s5.csv_path = some p := by rw [hs5]; simp [h3csv, hs4]
  have h5rc : s5.retry_count = some 2 := by rw [hs5]; simp [h4rc]
  have h5code : s5.viz_code = some (w.coderOf plan m2) := by rw [hs5]; simp
  have he3 : executor_node w s5 =
      NodeResult.ok { error_log := some m3, retry_count := some 3 } := by
    simp [executor_node, h5csv, hex, h5rc, h5code, hm3]
  set s6 := mergeState s5 { error_log := some m3, retry_count := some 3 } with hs6
  have h6err : s6.error_log = some m3 := by rw [hs6]; simp
  have h6rc : s6.retry_count = some 3 := by rw [hs6]; simp
  have hr6 : router s6 = "finalize" := by simp [router, h6err, h6rc, hnlt3]
  -- analyst and pdf
  have h6kp : s6.kpis = some kp := by rw [hs6, hs5, hs4, hs3, hs2, hs1]; simp [hkp]
  have h6ec : s6.external_context = some ec := by
    rw [hs6, hs5, hs4, hs3, hs2, hs1]; simp [hec]
  have h6vz : s6.viz_results = some vz := by
    rw [hs6, hs5, hs4, hs3, hs2, hs1]; simp [hvz]
  have ha : analyst_node w s6 = NodeResult.ok
      { key_findings := some (w.analystOf kp ec vz).findings
        viz_results := some (enrichViz (w.analystOf kp ec vz) vz)
        final_report := some (w.analystOf kp ec vz).raw } := by
    simp [analyst_node, h6kp, h6ec, h6vz]
  set uA : AgentUpdate :=
      { key_findings := some (w.analystOf kp ec vz).findings
        viz_results := some (enrichViz (w.analystOf kp ec vz) vz)
        final_report := some (w.analystOf kp ec vz).raw } with huA
  set s7 := mergeState s6 uA with hs7
  have h7vz : s7.viz_results ≠ none := by rw [hs7, huA]; simp
  obtain ⟨vz7, hvz7⟩ := Option.ne_none_iff_exists'.mp h7vz
  have hpdf : pdf_generator_node s7 = NodeResult.ok
      { final_report := some "Report Generated: static/Executive_Report.pdf" } := by
    simp [pdf_generator_node, hvz7]
  set u8 : AgentUpdate :=
      { final_report := some "Report Generated: static/Executive_Report.pdf" } with hu8
  set s8 := mergeState s7 u8 with hs8
  -- assemble the run, innermost step first
  have r8 : runFrom w 5 "pdf" s7 = ([("pdf", u8, s8)], InvokeResult.final s8) := by
    have h := runFrom_step_end w 4 "pdf" s7 u8 (by simp [hpdf]) (by simp)
    norm_num at h
    rw [h, ← hs8]
  have r7 : runFrom w 6 "analyst" s6 =
      (("analyst", uA, s7) :: [("pdf", u8, s8)], InvokeResult.final s8) := by
    have h := runFrom_step_ok w 5 "analyst" s6 uA "pdf" (by simp [ha]) (by simp)
    norm_num at h
    rw [h, ← hs7, r8]
  have r6 : runFrom w 7 "executor" s5 =
      (("executor", { error_log := some m3, retry_count := some 3 }, s6) ::
        ("analyst", uA, s7) :: [("pdf", u8, s8)], InvokeResult.final s8) := by
    have h := runFrom_step_ok w 6 "executor" s5
      { error_log := some m3, retry_count := some 3 } "analyst"
      (by simp [he3]) (by rw [← hs6]; simp [hr6, hfr])
    norm_num at h
    rw [h, ← hs6, r7]
  have r5 : runFrom w 8 "coder" s4 =
      (("coder", { viz_code := some (w.coderOf plan m2) }, s5) ::
        ("executor", { error_log := some m3, retry_count := some 3 }, s6) ::
        ("analyst", uA, s7) :: [("pdf", u8, s8)], InvokeResult.final s8) := by
    have h := runFrom_step_ok w 7 "coder" s4
      { viz_code := some (w.coderOf plan m2) } "executor" (by simp [hc3]) (by simp)
    norm_num at h
    rw [h, ← hs5, r6]
  have r4 : runFrom w 9 "executor" s3 =
      (("executor", { error_log := some m2, retry_count := some 2 }, s4) ::
        ("coder", { viz_code := some (w.coderOf plan m2) }, s5) ::
        ("executor", { error_log := some m3, retry_count := some 3 }, s6) ::
        ("analyst", uA, s7) :: [("pdf", u8, s8)], InvokeResult.final s8) := by
    have h := runFrom_step_ok w 8 "executor" s3
      { error_log := some m2, retry_count := some 2 } "coder"
      (by simp [he2]) (by rw [← hs4]; simp [hr4])
    norm_num at h
    rw [h, ← hs4, r5]
  have r3 : runFrom w 10 "coder" s2 =
      (("coder", { viz_code := some (w.coderOf plan m1) }, s3) ::
        ("executor", { error_log := some m2, retry_count := some 2 }, s4) ::
        ("coder", { viz_code := some (w.coderOf plan m2) }, s5) ::
        ("executor", { error_log := some m3, retry_count := some 3 }, s6) ::
        ("analyst", uA, s7) :: [("pdf", u8, s8)], InvokeResult.final s8) := by
    have h := runFrom_step_ok w 9 "coder" s2
      { viz_code := some (w.coderOf plan m1) } "executor" (by simp [hc2]) (by simp)
    norm_num at h
    rw [h, ← hs3, r4]
  have r2 : runFrom w 11 "executor" s1 =
      (("executor", { error_log := some m1, retry_count := some 1 }, s2) ::
        ("coder", { viz_code := some (w.coderOf plan m1) }, s3) ::
        ("executor", { error_log := some m2, retry_count := some 2 }, s4) ::
        ("coder", { viz_code := some (w.coderOf plan m2) }, s5) ::
        ("executor", { error_log := some m3, retry_count := some 3 }, s6) ::
        ("analyst", uA, s7) :: [("pdf", u8, s8)], InvokeResult.final s8) := by
    have h := runFrom_step_ok w 10 "executor" s1
      { error_log := some m1, retry_count := some 1 } "coder"
      (by simp [he1]) (by rw [← hs2]; simp [hr2])
    norm_num at h
    rw [h, ← hs2, r3]
  have r1 : runFrom w 12 "coder" s =
      (("coder", { viz_code := some (w.coderOf plan e0) }, s1) ::
        ("executor", { error_log := some m1, retry_count := some 1 }, s2) ::
        ("coder", { viz_code := some (w.coderOf plan m1) }, s3) ::
        ("executor", { error_log := some m2, retry_count := some 2 }, s4) ::
        ("coder", { viz_code := some (w.coderOf plan m2) }, s5) ::
        ("executor", { error_log := some m3, retry_count := some 3 }, s6) ::
        ("analyst", uA, s7) :: [("pdf", u8, s8)], InvokeResult.final s8) := by
    have h := runFrom_step_ok w 11 "coder" s
      { viz_code := some (w.coderOf plan e0) } "executor" (by simp [hc1]) (by simp)
    norm_num at h
    rw [h, ← hs1, r2]
  have hmap : ((runFrom w 12 "coder" s).1.map fun e => e.1) =
      ["coder", "executor", "coder", "executor", "coder", "executor",
       "analyst", "pdf"] := by
    rw [r1]
    rfl
  refine ⟨hmap, by rw [hmap]; decide, ⟨s8, by rw [r1]⟩, ?_, ?_, ?_⟩
  · exact ⟨("executor", { error_log := some m1, retry_count := some 1 }, s2),
      by rw [r1]; rfl, rfl, h2rc, hr2⟩
  · exact ⟨("executor", { error_log := some m2, retry_count := some 2 }, s4),
      by rw [r1]; rfl, rfl, h4rc, hr4⟩
  · refine ⟨("executor", { error_log := some m3, retry_count := some 3 }, s6),
      by rw [r1]; rfl, rfl, h6rc, ?_, hr6⟩
    rw [h6err]
    simpa using hm3ne

/-- Witness for C2: a concrete always-failing world runs the executor
exactly three times and then moves on. -/
theorem retry_cycle_three_attempts_witness :
    ((runFrom wFail 12 "coder" sCycle).1.map fun e => e.1) =
      ["coder", "executor", "coder", "executor", "coder", "executor",
       "analyst", "pdf"] ∧
    (((runFrom wFail 12 "coder" sCycle).1.map fun e => e.1).count "executor") = 3 := by
  have h := retry_cycle_three_attempts wFail sCycle "a.csv" "" "kpi0" "ctx0"
    [{ title := "t", goal := "g" }] [] rfl rfl rfl rfl rfl rfl rfl rfl
    (fun c => ⟨"boom", rfl, by decide⟩)
  exact ⟨h.1, h.2.1⟩

end DataAnalyzer
